import Mathlib

/-!
Verification of the event-extraction / time-filtering core of
`google_adk/5_disaster_data_agent/agent.py`.

The Python functions are shallowly embedded as executable Lean
definitions.  Python `dict`s produced with a fixed key set are modelled
as structures; keys whose value may be absent or `None` are modelled as
`Option` fields; Python string truthiness (`if s:`) is modelled as
"present and nonempty".  Python exceptions escaping a function are
modelled with `Except`; exceptions swallowed by a local `try/except`
are modelled with `Option`.  `datetime.now()` is an input parameter.
Text is treated as ASCII; `re.findall` is modelled by left-to-right,
non-overlapping scanners, one per concrete regular expression of the
source.
-/

namespace DisasterAgent

/-! ## Small string utilities (Python `str` operations used by the source) -/

/-- Lower-case a character list (model of `str.lower()` for ASCII text). -/
def lowerL (l : List Char) : List Char := l.map Char.toLower

/-- `isPrefL p s` : `p` is an initial segment of `s` (exact characters). -/
def isPrefL : List Char → List Char → Bool
  | [], _ => true
  | _ :: _, [] => false
  | a :: as, b :: bs => a == b && isPrefL as bs

/-- `subL p s` : Python `p in s` substring test on character lists. -/
def subL (p : List Char) : List Char → Bool
  | [] => p.isEmpty
  | c :: cs => isPrefL p (c :: cs) || subL p cs

/-- Python `p in s` on strings. -/
def strIn (p s : String) : Bool := subL p.toList s.toList

/-- Python `s.startswith(p)`. -/
def pyStarts (p s : String) : Bool := isPrefL p.toList s.toList

/-- Numeric value of a digit string (model of Python `int` on `\d+` captures). -/
def natOfDigits (l : List Char) : Nat :=
  l.foldl (fun a c => a * 10 + (c.toNat - 48)) 0

/-- Python `s.isdigit()` for ASCII: nonempty and all decimal digits. -/
def isDigitStr (s : String) : Bool :=
  !s.toList.isEmpty && s.toList.all Char.isDigit

/-- Python `str.title()` for ASCII text: the first letter of each run of
letters is upper-cased, the following letters lower-cased. -/
def pyTitleGo : Bool → List Char → List Char
  | _, [] => []
  | prevAlpha, c :: cs =>
    if c.isAlpha then
      (if prevAlpha then c.toLower else c.toUpper) :: pyTitleGo true cs
    else
      c :: pyTitleGo false cs

/-- Python `s.title()`. -/
def pyTitle (s : String) : String := String.mk (pyTitleGo false s.toList)

/-- Python `s.strip()` (ASCII whitespace). -/
def pyStrip (s : String) : String :=
  String.mk (((s.toList.dropWhile Char.isWhitespace).reverse.dropWhile
    Char.isWhitespace).reverse)

/-- Left-pad a numeral with zeros to the given width (model of the
zero-padded `%Y`/`%m`/`%d` directives of `strftime`). -/
def padNum (w n : Nat) : String :=
  let s := toString n
  String.mk (List.replicate (w - s.length) '0') ++ s

/-- Truthiness of an optional string (Python `if s:` where `s` is a
string-or-`None` dictionary entry). -/
def truthyS : Option String → Bool
  | none => false
  | some s => s ≠ ""

/-! ## Calendar dates

Model of Python `datetime` values at day granularity, and of
`datetime.strptime(s, '%Y-%m-%d')` / `strptime(s, '%m/%d/%Y')` /
`strftime('%Y-%m-%d')` / `timedelta` subtraction. -/

/-- A (possibly invalid) year-month-day triple. -/
structure Date where
  y : Nat
  m : Nat
  d : Nat
deriving DecidableEq, Repr

/-- Gregorian leap-year rule (as used by Python `datetime`). -/
def isLeap (y : Nat) : Bool := (y % 4 == 0 && y % 100 != 0) || y % 400 == 0

/-- Number of days of month `m` of year `y`. -/
def daysInMonth (y m : Nat) : Nat :=
  if m = 2 then (if isLeap y then 29 else 28)
  else if m = 4 ∨ m = 6 ∨ m = 9 ∨ m = 11 then 30
  else 31

/-- The triple denotes a real proleptic-Gregorian calendar date
(`datetime.date` accepts exactly these, with year at least 1). -/
def validDate (a : Date) : Prop :=
  1 ≤ a.y ∧ 1 ≤ a.m ∧ a.m ≤ 12 ∧ 1 ≤ a.d ∧ a.d ≤ daysInMonth a.y a.m

instance (a : Date) : Decidable (validDate a) := by
  unfold validDate; infer_instance

/-- Chronological (lexicographic) strict order on dates; agrees with
Python `datetime` comparison for valid dates. -/
def dateLt (a b : Date) : Prop :=
  a.y < b.y ∨ (a.y = b.y ∧ (a.m < b.m ∨ (a.m = b.m ∧ a.d < b.d)))

/-- Chronological order on dates, `a` not after `b`. -/
def dateLe (a b : Date) : Prop :=
  a.y < b.y ∨ (a.y = b.y ∧ (a.m < b.m ∨ (a.m = b.m ∧ a.d ≤ b.d)))

instance (a b : Date) : Decidable (dateLt a b) := by
  unfold dateLt; infer_instance

instance (a b : Date) : Decidable (dateLe a b) := by
  unfold dateLe; infer_instance

/-- All characters are decimal digits. -/
def allDigits (l : List Char) : Bool := l.all Char.isDigit

/-- Shared final step of both `strptime` models: range-check the three
numeric fields exactly as `datetime.date` does. -/
def mkValidDate (y m d : Nat) : Option Date :=
  if validDate ⟨y, m, d⟩ then some ⟨y, m, d⟩ else none

/-- Model of `datetime.strptime(s, '%Y-%m-%d')` (CPython: `%Y` is exactly
four digits, `%m`/`%d` one or two digits, no surrounding junk), composed
with the `datetime.date` range checks.  Returns `none` where Python
raises `ValueError`. -/
def parseYMD (s : String) : Option Date :=
  match s.toList.splitOn '-' with
  | [a, b, c] =>
    if a.length = 4 && allDigits a && 1 ≤ b.length && b.length ≤ 2 &&
       allDigits b && 1 ≤ c.length && c.length ≤ 2 && allDigits c then
      mkValidDate (natOfDigits a) (natOfDigits b) (natOfDigits c)
    else none
  | _ => none

/-- Model of `datetime.strptime(s, '%m/%d/%Y')`. -/
def parseMDY (s : String) : Option Date :=
  match s.toList.splitOn '/' with
  | [a, b, c] =>
    if 1 ≤ a.length && a.length ≤ 2 && allDigits a && 1 ≤ b.length &&
       b.length ≤ 2 && allDigits b && c.length = 4 && allDigits c then
      mkValidDate (natOfDigits c) (natOfDigits a) (natOfDigits b)
    else none
  | _ => none

/-- Model of `strftime('%Y-%m-%d')`. -/
def formatDate (a : Date) : String :=
  padNum 4 a.y ++ "-" ++ padNum 2 a.m ++ "-" ++ padNum 2 a.d

/-- The calendar day before `a` (for valid `a` other than 0001-01-01). -/
def prevDay (a : Date) : Date :=
  if 1 < a.d then ⟨a.y, a.m, a.d - 1⟩
  else if 1 < a.m then ⟨a.y, a.m - 1, daysInMonth a.y (a.m - 1)⟩
  else ⟨a.y - 1, 12, 31⟩

/-- `n` calendar days before `a`: model of `a - timedelta(days=n)`. -/
def subDays : Nat → Date → Date
  | 0, a => a
  | n + 1, a => subDays n (prevDay a)

/-! ## Scanners for the concrete regular expressions of the source

`re.findall(pat, text, re.IGNORECASE)` is modelled by a left-to-right,
non-overlapping scan: at each position the pattern matcher is tried; on
success its capture is recorded and scanning resumes after the match,
otherwise scanning advances one character.  Each matcher returns the
captured group and the remainder of the text after the whole match. -/

/-- One whitespace character or more (`\s+`); returns the remainder. -/
def wsPlus : List Char → Option (List Char)
  | [] => none
  | c :: cs => if c.isWhitespace then some (cs.dropWhile Char.isWhitespace) else none

/-- Consume a literal case-insensitively (the literal is given lower-case). -/
def litCI : List Char → List Char → Option (List Char)
  | [], s => some s
  | _ :: _, [] => none
  | p :: ps, c :: cs => if c.toLower == p then litCI ps cs else none

/-- First alternative of a lower-case literal alternation that matches. -/
def tryAlts (alts : List (List Char)) (s : List Char) : Option (List Char) :=
  match alts with
  | [] => none
  | a :: as =>
    match litCI a s with
    | some r => some r
    | none => tryAlts as s

/-- Matcher for `(\d+)\s+(?:people\s+)?(?:kw1|kw2|...)` (the casualty
patterns); captures the digits. -/
def matchCasualtyAt (kws : List (List Char)) (s : List Char) : Option (String × List Char) :=
  let ds := s.takeWhile Char.isDigit
  let r1 := s.dropWhile Char.isDigit
  if ds.isEmpty then none else
  match wsPlus r1 with
  | none => none
  | some r2 =>
    let afterKw :=
      match litCI "people".toList r2 with
      | some rp =>
        match wsPlus rp with
        | some rp2 =>
          match tryAlts kws rp2 with
          | some r => some r
          | none => tryAlts kws r2
        | none => tryAlts kws r2
      | none => tryAlts kws r2
    match afterKw with
    | some rest => some (String.mk ds, rest)
    | none => none

/-- Matcher for `death\s+toll\s+(?:of\s+)?(\d+)`; captures the digits. -/
def matchTollAt (s : List Char) : Option (String × List Char) :=
  let digitsAt (r : List Char) : Option (String × List Char) :=
    let ds := r.takeWhile Char.isDigit
    if ds.isEmpty then none else some (String.mk ds, r.dropWhile Char.isDigit)
  match litCI "death".toList s with
  | none => none
  | some r1 =>
    match wsPlus r1 with
    | none => none
    | some r2 =>
      match litCI "toll".toList r2 with
      | none => none
      | some r3 =>
        match wsPlus r3 with
        | none => none
        | some r4 =>
          match litCI "of".toList r4 with
          | some ro =>
            match wsPlus ro with
            | some ro2 =>
              match digitsAt ro2 with
              | some res => some res
              | none => digitsAt r4
            | none => digitsAt r4
          | none => digitsAt r4

/-- Matcher for `\d+` (digit runs). -/
def matchDigitsAt (s : List Char) : Option (String × List Char) :=
  let ds := s.takeWhile Char.isDigit
  if ds.isEmpty then none else some (String.mk ds, s.dropWhile Char.isDigit)

/-- `[-\/]`. -/
def isSep (c : Char) : Bool := c == '/' || c == '-'

/-- `\w` of Python `re` for ASCII. -/
def isWordChar (c : Char) : Bool := c.isAlphanum || c == '_'

/-- Matcher for URL date pattern `20\d{2}[-\/]\d{2}[-\/]\d{2}`. -/
def matchPatA : List Char → Option (String × List Char)
  | '2' :: '0' :: a :: b :: s1 :: c :: d :: s2 :: e :: f :: rest =>
    if a.isDigit && b.isDigit && isSep s1 && c.isDigit && d.isDigit &&
       isSep s2 && e.isDigit && f.isDigit then
      some (String.mk ['2', '0', a, b, s1, c, d, s2, e, f], rest)
    else none
  | _ => none

/-- Matcher for URL date pattern `\d{2}[-\/]\d{2}[-\/]20\d{2}`. -/
def matchPatB : List Char → Option (String × List Char)
  | a :: b :: s1 :: c :: d :: s2 :: '2' :: '0' :: e :: f :: rest =>
    if a.isDigit && b.isDigit && isSep s1 && c.isDigit && d.isDigit &&
       isSep s2 && e.isDigit && f.isDigit then
      some (String.mk [a, b, s1, c, d, s2, '2', '0', e, f], rest)
    else none
  | _ => none

/-- The three-letter month alternation of the source's patterns. -/
def monthsL : List (List Char) :=
  ["jan", "feb", "mar", "apr", "may", "jun", "jul", "aug", "sep", "oct",
   "nov", "dec"].map String.toList

/-- Consume `20\d{2}`. -/
def match20dd : List Char → Option (List Char)
  | '2' :: '0' :: a :: b :: rest => if a.isDigit && b.isDigit then some rest else none
  | _ => none

/-- Consume exactly `\d{4}`. -/
def match4d : List Char → Option (List Char)
  | a :: b :: c :: d :: rest =>
    if a.isDigit && b.isDigit && c.isDigit && d.isDigit then some rest else none
  | _ => none

/-- Optional single character from a class (greedy, with backtracking
into the continuation). -/
def optClass (cls : List Char) (r : List Char) (k : List Char → Option (List Char)) :
    Option (List Char) :=
  match r with
  | c :: cs =>
    if cls.contains c then
      match k cs with
      | some res => some res
      | none => k r
    else k r
  | [] => k r

/-- `\d{1,2}` (greedy, with backtracking into the continuation). -/
def d12 (r : List Char) (k : List Char → Option (List Char)) : Option (List Char) :=
  match r with
  | a :: b :: rest =>
    if a.isDigit && b.isDigit then
      match k rest with
      | some res => some res
      | none => k (b :: rest)
    else if a.isDigit then k (b :: rest) else none
  | [a] => if a.isDigit then k [] else none
  | [] => none

/-- Tail of URL date pattern C after the `\w*` choice:
`[- ]?\d{1,2}[,\- ]?20\d{2}`. -/
def patCafterW (r : List Char) : Option (List Char) :=
  optClass ['-', ' '] r (fun r3 =>
    d12 r3 (fun r4 =>
      optClass [',', '-', ' '] r4 match20dd))

/-- Greedy choice of how many `\w*` characters to consume (largest first). -/
def patCtryK (r1 : List Char) : Nat → Option (List Char)
  | 0 => patCafterW r1
  | k + 1 =>
    match patCafterW (r1.drop (k + 1)) with
    | some res => some res
    | none => patCtryK r1 k

/-- Month alternation of URL date pattern C, with its continuation. -/
def matchPatCGo (s : List Char) : List (List Char) → Option (List Char)
  | [] => none
  | mo :: mos =>
    match (litCI mo s).bind (fun r1 => patCtryK r1 (r1.takeWhile isWordChar).length) with
    | some rest => some rest
    | none => matchPatCGo s mos

/-- Matcher for URL date pattern
`(?:jan|feb|...|dec)\w*[- ]?\d{1,2}[,\- ]?20\d{2}` (no group: the whole
match is the capture). -/
def matchPatC (s : List Char) : Option (String × List Char) :=
  match matchPatCGo s monthsL with
  | some rest => some (String.mk (s.take (s.length - rest.length)), rest)
  | none => none

/-- Consume `\d{1,2}\s+(?:Jan|...|Dec)\w*\s+\d{4}` (textual date core of
the discrete-event date patterns). -/
def coreTextualDate (r : List Char) : Option (List Char) :=
  d12 r (fun r2 =>
    match wsPlus r2 with
    | none => none
    | some r3 =>
      match tryAlts monthsL r3 with
      | none => none
      | some r4 =>
        match wsPlus (r4.dropWhile isWordChar) with
        | none => none
        | some r6 => match4d r6)

/-- Consume `\d{1,2}[-\/]\d{1,2}[-\/]\d{2,4}`. -/
def coreNumDate24 (r : List Char) : Option (List Char) :=
  d12 r (fun r2 =>
    match r2 with
    | c :: cs =>
      if isSep c then
        d12 cs (fun r3 =>
          match r3 with
          | c2 :: cs2 =>
            if isSep c2 then
              let ds := cs2.takeWhile Char.isDigit
              if 2 ≤ ds.length then some (cs2.drop (min 4 ds.length)) else none
            else none
          | [] => none)
      else none
    | [] => none)

/-- Consume `\d{1,2}[-\/]\d{1,2}[-\/]\d{4}`. -/
def coreNumDate4 (r : List Char) : Option (List Char) :=
  d12 r (fun r2 =>
    match r2 with
    | c :: cs =>
      if isSep c then
        d12 cs (fun r3 =>
          match r3 with
          | c2 :: cs2 => if isSep c2 then match4d cs2 else none
          | [] => none)
      else none
    | [] => none)

/-- Matcher for a bare captured core (the whole match is the group). -/
def matchCore (core : List Char → Option (List Char)) (s : List Char) :
    Option (String × List Char) :=
  match core s with
  | some rest => some (String.mk (s.take (s.length - rest.length)), rest)
  | none => none

/-- Matcher for `(?:on|in|during)\s+(<core>)`: the capture is the core
only, and the match ends at the end of the core. -/
def matchPreCore (core : List Char → Option (List Char)) (s : List Char) :
    Option (String × List Char) :=
  let pres := ["on", "in", "during"].map String.toList
  let rec go : List (List Char) → Option (String × List Char)
    | [] => none
    | p :: ps =>
      match (litCI p s).bind wsPlus with
      | some r2 =>
        (match core r2 with
         | some rest => some (String.mk (r2.take (r2.length - rest.length)), rest)
         | none => go ps)
      | none => go ps
  go pres

/-- Left-to-right non-overlapping scan (fuelled with the text length,
which bounds the number of steps since every match is nonempty). -/
def scanGo (m : List Char → Option (String × List Char)) : Nat → List Char → List String
  | 0, _ => []
  | _, [] => []
  | fuel + 1, c :: cs =>
    match m (c :: cs) with
    | some (cap, rest) =>
      cap :: scanGo m fuel (if rest.length ≤ cs.length then rest else cs)
    | none => scanGo m fuel cs

/-- `re.findall` model: all captures, leftmost first. -/
def scanAll (m : List Char → Option (String × List Char)) (s : String) : List String :=
  scanGo m s.toList.length s.toList

/-- `re.findall` of a casualty pattern with the given keyword alternation. -/
def findCasualty (kws : List String) (text : String) : List String :=
  scanAll (matchCasualtyAt (kws.map String.toList)) text

/-- `s.lower()` on strings. -/
def lowerS (s : String) : String := String.mk (lowerL s.toList)

/-- Deduplicate keeping the first occurrence of each element.  Used to
model Python's `list(set(xs))`, whose order is actually unspecified
(hash order); no claim depends on the order chosen. -/
def dedupFirstGo (seen : List String) : List String → List String
  | [] => []
  | x :: xs =>
    if seen.contains x then dedupFirstGo seen xs
    else x :: dedupFirstGo (x :: seen) xs

/-- `list(set(xs))`, see `dedupFirstGo`. -/
def dedupFirst (xs : List String) : List String := dedupFirstGo [] xs

/-! ## Data model

The Python `dict`s flowing through the pipeline, modelled as structures
(absent-or-`None` entries as `Option` fields, with the `.get` defaults
of the source folded into field defaults). -/

/-- The time-bounds dictionary: built either by `json.loads` on the
oracle reply or by the fallback literal of
`extract_time_bounds_from_query`. -/
structure TimeBounds where
  start_date : Option String := none
  end_date : Option String := none
  temporal_description : Option String := none
  has_time_constraint : Bool := false
deriving DecidableEq, Repr

/-- The `disaster_entities` dictionary of `extract_structured_data`. -/
structure Entities where
  dates : List String := []
  locations : List String := []
  event_names : List String := []
  casualties : List String := []
deriving DecidableEq, Repr

/-- One scraped table (`structured_data["tables"][i]`). -/
structure Table where
  caption : String := ""
  headers : List String := []
  rows : List (List String) := []
deriving DecidableEq, Repr

/-- A discrete-event dictionary on the live path (produced by the LLM
clusterer or by `extract_discrete_events_fallback`, consumed by
`filter_events_by_time_bounds` and `create_packet_from_llm_event`). -/
structure Event where
  event_id : String := ""
  event_type : String := ""
  description : String := ""
  dates : List String := []
  start_date : Option String := none
  end_date : Option String := none
  locations : List String := []
  primary_location : Option String := none
  casualties : List (String × Int) := []
  severity : String := "unknown"
  content_ids : List String := []
  source : String := ""
deriving DecidableEq, Repr

/-- A discrete-event dictionary as built by the (unused on the live
path) `extract_discrete_events`: its `casualties` entry has keys
`reported` (a list of digit strings) and `total`, not
`deaths`/`injured`/`displaced`. -/
structure EDEvent where
  event_id : String
  event_type : String
  description : String
  dates : List String
  start_date : Option String
  end_date : Option String
  locations : List String
  primary_location : Option String
  casualties_reported : List String
  casualties_total : Nat
  severity : String
  source : String
deriving DecidableEq, Repr

/-- A discovered-URL dictionary, restricted to the entries read by
`filter_urls_by_date_relevance` (the filter passes items through
unchanged, so the remaining entries are irrelevant to it). -/
structure UrlItem where
  url : String := ""
  title : String := ""
  snippet : String := ""
deriving DecidableEq, Repr

/-- The `search_item` entries read by `create_packet_from_llm_event`. -/
structure SearchItem where
  domain : String := ""
  relevance_score : Int := 0
deriving DecidableEq, Repr

/-- The `struct` (structured-data) entries read by
`create_packet_from_llm_event`; `publish_date` is
`struct.get('metadata', {}).get('publish_date')`. -/
structure Struct where
  title : String := ""
  publish_date : Option String := none
deriving DecidableEq, Repr

/-- The Kafka packet dictionary built by `create_packet_from_llm_event`
(nested dictionaries flattened into prefixed fields). -/
structure Packet where
  packet_id : String
  packet_type : String
  kafka_topic : String
  timestamp : String
  schema_version : String
  event_id : String
  event_type : String
  event_name : String
  event_description : String
  event_severity : String
  start_date : Option String
  end_date : Option String
  all_dates_mentioned : List String
  is_ongoing : Bool
  primary_location : Option String
  affected_locations : List String
  num_locations : Nat
  deaths : Int
  injured : Int
  displaced : Int
  total_affected : Int
  src_url : String
  src_domain : String
  src_title : String
  collection_timestamp : String
  content_ids : List String
  disaster_type : String
  relevance_score : Int
  confidence : String
  extraction_method : String
  priority : String
  requires_nlp : Bool
  requires_geo_coding : Bool
  requires_time_normalization : Bool
  retention_days : Nat
deriving DecidableEq, Repr

/-! ## The embedded source functions -/

/-- Total of a casualty list as the source computes it:
`sum(int(c) for c in casualties if c.isdigit())`. -/
def casualtyTotal (casualties : List String) : Nat :=
  ((casualties.filter isDigitStr).map (fun c => natOfDigits c.toList)).foldl (· + ·) 0

/-- `calculate_severity` (agent.py 1304-1316). -/
def calculate_severity (casualties : List String) (num_locations : Nat) : String :=
  if casualties.isEmpty then "low"
  else
    let total := casualtyTotal casualties
    if 100 < total ∨ 3 < num_locations then "high"
    else if 10 < total ∨ 1 < num_locations then "medium"
    else "low"

/-- Modelled from the spec's words (§4.5), for refinement comparison
only: "severity = high if total casualties > 100 OR location count > 3;
medium if total > 10 OR location count > 1; else low". -/
def severitySpec (total num_locations : Nat) : String :=
  if 100 < total ∨ 3 < num_locations then "high"
  else if 10 < total ∨ 1 < num_locations then "medium"
  else "low"

/-- `extract_time_bounds_from_query` (agent.py 906-985).  The LLM call
plus JSON decoding is the external oracle: `some tb` models a reply that
decoded to a JSON object (returned as is, without any validation),
`none` models every failure the bare `except` catches — transport
error, timeout, unparsable reply.  The user query only shapes the
prompt, so it does not appear. -/
def extract_time_bounds_from_query (oracleReply : Option TimeBounds) (today : Date) :
    TimeBounds :=
  match oracleReply with
  | some tb => tb
  | none =>
    { start_date := some (formatDate (subDays 7 today))
      end_date := some (formatDate today)
      temporal_description := some "past week (default)"
      has_time_constraint := false }

/-- The date strings the URL pre-filter finds in one candidate:
`re.findall` of the three date patterns over
`url + ' ' + title + ' ' + snippet` (title and snippet lower-cased by
the caller, the url not). -/
def urlFoundDates (item : UrlItem) : List String :=
  let hay := item.url ++ " " ++ lowerS item.title ++ " " ++ lowerS item.snippet
  scanAll matchPatA hay ++ scanAll matchPatB hay ++ scanAll matchPatC hay

/-- The per-date-string parse attempt of the URL pre-filter (agent.py
1037-1051); `none` models both the unhandled-format case and a caught
`ValueError`. -/
def urlDateParse (ds : String) : Option Date :=
  if strIn "-" ds && ((ds.toList.splitOn '-').headD []).length = 4 then
    parseYMD ds
  else if strIn "/" ds then parseMDY ds
  else none

/-- The keep decision for one URL item under active bounds
`[sd, ed]`. -/
def urlItemKeep (sd ed : Date) (item : UrlItem) : Bool :=
  let found := urlFoundDates item
  if found.isEmpty then
    ["latest", "recent", "today", "breaking", "live", "update"].any
      (fun kw => strIn kw (lowerS item.title) || strIn kw (lowerS item.snippet))
  else
    found.any (fun ds =>
      match urlDateParse ds with
      | some d => decide (dateLe sd d) && decide (dateLe d ed)
      | none => false)

/-- `filter_urls_by_date_relevance` (agent.py 988-1064).  The
`strptime` calls on the bounds sit outside any `try`, so a missing or
unparsable bound raises (`Except.error`). -/
def filter_urls_by_date_relevance (urls : List UrlItem) (tb : TimeBounds) :
    Except String (List UrlItem) :=
  if tb.has_time_constraint = false then .ok urls
  else
    match tb.start_date with
    | none => .error "KeyError: start_date"
    | some ss =>
      match parseYMD ss with
      | none => .error "ValueError: start_date"
      | some sd =>
        match tb.end_date with
        | none => .error "KeyError: end_date"
        | some es =>
          match parseYMD es with
          | none => .error "ValueError: end_date"
          | some ed =>
            let filtered := urls.filter (urlItemKeep sd ed)
            .ok (if filtered.isEmpty then urls.take 2 else filtered)

/-- The per-event keep decision of the event post-filter under active
bounds `[sd, ed]` (`now` models `datetime.now()`, at day granularity). -/
def eventWithinBounds (sd ed now : Date) (ev : Event) : Bool :=
  match ev.start_date with
  | none => false
  | some s =>
    if s = "" then false
    else if pyStarts "RELATIVE:" s then decide (dateLe sd now) && decide (dateLe now ed)
    else
      match parseYMD s with
      | some d => decide (dateLe sd d) && decide (dateLe d ed)
      | none => false

/-- `filter_events_by_time_bounds` (agent.py 1066-1120).  As in the URL
filter, the bound parsing raises on degenerate bounds; the per-event
parse sits inside `try/except` and only excludes the event. -/
def filter_events_by_time_bounds (events : List Event) (tb : TimeBounds) (now : Date) :
    Except String (List Event) :=
  if tb.has_time_constraint = false then .ok events
  else
    match tb.start_date with
    | none => .error "KeyError: start_date"
    | some ss =>
      match parseYMD ss with
      | none => .error "ValueError: start_date"
      | some sd =>
        match tb.end_date with
        | none => .error "KeyError: end_date"
        | some es =>
          match parseYMD es with
          | none => .error "ValueError: end_date"
          | some ed => .ok (events.filter (eventWithinBounds sd ed now))

/-- The per-paragraph casualty scan of `extract_discrete_events_fallback`
(agent.py 872-879): the three casualty patterns, extended in order. -/
def fallbackCasualties (para : String) : List String :=
  findCasualty ["killed", "dead", "deaths", "died"] para ++
  findCasualty ["injured", "wounded"] para ++
  findCasualty ["displaced", "evacuated", "affected"] para

/-- The paragraph body of `extract_discrete_events_fallback`
(agent.py 862-901): the event built for paragraph `pidx`, or `none`
when the paragraph is skipped. -/
def fallbackEvent (entities : Entities) (disaster_type : String) (pidx : Nat)
    (para : String) : Option Event :=
  let para_lower := lowerS para
  let para_dates := entities.dates.filter (fun d => subL (lowerS d).toList para_lower.toList)
  let para_locations :=
    entities.locations.filter (fun loc => subL (lowerS loc).toList para_lower.toList)
  let casualties := fallbackCasualties para
  if (para_dates ≠ [] ∨ para_locations ≠ []) ∧ 50 < para.length then
    some
      { event_id := "para_" ++ toString pidx
        event_type := disaster_type
        description := String.mk (para.toList.take 200)
        dates := para_dates
        start_date := para_dates.head?
        end_date := if 1 < para_dates.length then para_dates.getLast? else none
        locations := para_locations
        primary_location := para_locations.head?
        casualties :=
          [("deaths", match casualties.head? with
                      | some c => (natOfDigits c.toList : Int)
                      | none => 0),
           ("injured", 0), ("displaced", 0)]
        severity :=
          match casualties.head? with
          | some c => if 50 < natOfDigits c.toList then "high" else "medium"
          | none => "medium"
        content_ids := []
        source := "fallback_paragraph" }
  else none

/-- `extract_discrete_events_fallback` (agent.py 842-903): iterates
over `paragraphs[:30]` only; the `tables` parameter is accepted but
never read by the source body. -/
def extract_discrete_events_fallback (paragraphs : List String) (entities : Entities)
    (tables : List Table) (disaster_type : String) : List Event :=
  (paragraphs.take 30).enum.filterMap
    (fun pi => fallbackEvent entities disaster_type pi.1 pi.2)

/-- Column detection of the table branch of `extract_discrete_events`
(agent.py 1146-1163): independent substring tests on the lower-cased
headers, later headers overwriting earlier hits.  Result:
`(date_col, location_col, magnitude_col, deaths_col)`. -/
def findCols (headers : List String) : Option Nat × Option Nat × Option Nat × Option Nat :=
  ((headers.map lowerS).enum).foldl
    (fun acc ih =>
      let idx := ih.1
      let h := ih.2
      let dc := if strIn "date" h || strIn "time" h || strIn "year" h then some idx else acc.1
      let lc :=
        if strIn "location" h || strIn "place" h || strIn "region" h || strIn "state" h then
          some idx
        else acc.2.1
      let mc :=
        if strIn "magnitude" h || strIn "mw" h || strIn "richter" h then some idx
        else acc.2.2.1
      let kc :=
        if strIn "death" h || strIn "casualt" h || strIn "killed" h then some idx
        else acc.2.2.2
      (dc, lc, mc, kc))
    (none, none, none, none)

/-- One row of the table branch of `extract_discrete_events`
(agent.py 1169-1206): `none` when the row is skipped (too short, or
neither date nor location). -/
def tableRowEvent (disaster_type : String) (tidx : Nat)
    (dc lc mc kc : Option Nat) (ridx : Nat) (row : List String) : Option EDEvent :=
  let maxIdx := ([dc, lc, mc, kc].filterMap id).foldl max 0
  if row.length ≤ maxIdx then none
  else
    let cell (oc : Option Nat) : Option String :=
      match oc with
      | some i => if i < row.length then some (pyStrip (row.getD i "")) else none
      | none => none
    let event_date := cell dc
    let event_location := cell lc
    let event_magnitude := cell mc
    let event_deaths := cell kc
    if !truthyS event_date && !truthyS event_location then none
    else
      let casualties :=
        match event_deaths with
        | some s => if s ≠ "" then scanAll matchDigitsAt s else []
        | none => []
      some
        { event_id := "table_" ++ toString tidx ++ "_row_" ++ toString ridx
          event_type := if disaster_type ≠ "all" then disaster_type else "earthquake"
          description :=
            pyTitle disaster_type ++ " event" ++
            (match event_magnitude with
             | some m => if m ≠ "" then " (magnitude " ++ m ++ ")" else ""
             | none => "")
          dates := match event_date with
                   | some d => if d ≠ "" then [d] else []
                   | none => []
          start_date := event_date
          end_date := none
          locations := match event_location with
                       | some l => if l ≠ "" then [l] else []
                       | none => []
          primary_location := event_location
          casualties_reported := casualties
          casualties_total := if casualties.isEmpty then 0 else casualtyTotal casualties
          severity := calculate_severity casualties (if truthyS event_location then 1 else 0)
          source := "table" }

/-- The four per-paragraph date patterns of `extract_discrete_events`
(agent.py 1212-1217), applied in order and concatenated. -/
def edeParaDates (para : String) : List String :=
  scanAll (matchPreCore coreTextualDate) para ++
  scanAll (matchPreCore coreNumDate24) para ++
  scanAll (matchCore coreTextualDate) para ++
  scanAll (matchCore coreNumDate4) para

/-- The disaster keyword families of `extract_discrete_events`
(agent.py 1250-1256), in dictionary (insertion) order. -/
def disasterKeywords : List (String × List String) :=
  [("flood", ["flood", "flooding", "inundation", "deluge"]),
   ("cyclone", ["cyclone", "hurricane", "typhoon", "storm"]),
   ("earthquake", ["earthquake", "tremor", "quake", "seismic"]),
   ("landslide", ["landslide", "mudslide", "slope failure"]),
   ("drought", ["drought", "water crisis", "dry spell"])]

/-- One paragraph of the paragraph branch of `extract_discrete_events`
(agent.py 1219-1294). -/
def edeParagraphEvent (entities : Entities) (disaster_type : String) (pidx : Nat)
    (para : String) : Option EDEvent :=
  let para_lower := lowerS para
  let para_dates := dedupFirst (edeParaDates para)
  let para_locations :=
    entities.locations.filter (fun loc => subL (lowerS loc).toList para_lower.toList)
  let casualties :=
    findCasualty ["killed", "dead", "deaths", "died"] para ++
    findCasualty ["injured", "wounded"] para ++
    findCasualty ["displaced", "evacuated", "affected"] para
  let event_types := (disasterKeywords.filter
    (fun fam => fam.2.any (fun kw => strIn kw para_lower))).map (·.1)
  if (para_dates ≠ [] ∨ para_locations ≠ []) ∧ 50 < para.length then
    some
      { event_id := "para_" ++ toString pidx
        event_type := event_types.headD disaster_type
        description := para
        dates := para_dates
        start_date := para_dates.head?
        end_date := if 1 < para_dates.length then para_dates.getLast? else none
        locations := para_locations
        primary_location := para_locations.head?
        casualties_reported := casualties
        casualties_total := if casualties.isEmpty then 0 else casualtyTotal casualties
        severity := calculate_severity casualties para_locations.length
        source := "paragraph" }
  else none

/-- `extract_discrete_events` (agent.py 1122-1301): table events (rows
limited to 20 per table, only when a date or location column was
identified) followed by paragraph events (no paragraph cap here). -/
def extract_discrete_events (paragraphs : List String) (entities : Entities)
    (disaster_type : String) (tables : List Table) : List EDEvent :=
  let tableEvents := tables.enum.foldl
    (fun acc ti =>
      let tidx := ti.1
      let table := ti.2
      match findCols table.headers with
      | (dc, lc, mc, kc) =>
        if dc.isSome || lc.isSome then
          acc ++ ((table.rows.take 20).enum.filterMap
            (fun ri => tableRowEvent disaster_type tidx dc lc mc kc ri.1 ri.2))
        else acc)
    []
  let paraEvents := paragraphs.enum.filterMap
    (fun pi => edeParagraphEvent entities disaster_type pi.1 pi.2)
  tableEvents ++ paraEvents

/-- The four casualty patterns of `extract_structured_data`
(agent.py 1861-1866), in list order. -/
def casualtyPatternList : List (List Char → Option (String × List Char)) :=
  [matchCasualtyAt (["killed", "dead", "deaths", "died", "fatalities"].map String.toList),
   matchTollAt,
   matchCasualtyAt (["injured", "wounded", "hurt"].map String.toList),
   matchCasualtyAt (["missing", "displaced", "evacuated", "affected"].map String.toList)]

/-- The casualty-extraction step of `extract_structured_data`
(agent.py 1860-1871): `found_casualties` is extended pattern by
pattern, then truncated to the first 10.  The document full text (built
by the external HTML parser) is the input. -/
def extract_casualty_numbers (full_text : String) : List String :=
  (casualtyPatternList.foldl (fun acc m => acc ++ scanAll m full_text) []).take 10

/-- Dictionary lookup with default (`casualties.get(key, 0)`). -/
def lookupI (l : List (String × Int)) (k : String) (dflt : Int) : Int :=
  match l.find? (fun p => p.1 == k) with
  | some p => p.2
  | none => dflt

/-- `create_packet_from_llm_event` (agent.py 576-672).  The
`datetime.now()` readings are inputs: `nowDate` is
`now.strftime('%Y-%m-%d')`, `nowTs` is `now.strftime('%Y%m%d%H%M%S')`,
`nowIso` is `now.isoformat()`. -/
def create_packet_from_llm_event (event : Event) (url : String)
    (search_item : SearchItem) (struct : Struct) (disaster_type : String)
    (packet_index : Nat) (nowDate nowTs nowIso : String) : Packet :=
  let start_date :=
    match event.start_date with
    | some s =>
      if s ≠ "" && pyStarts "RELATIVE:" s then
        match struct.publish_date with
        | some p => if p ≠ "" then some p else some nowDate
        | none => some nowDate
      else some s
    | none => none
  let end_date := event.end_date
  let casualties := event.casualties
  { packet_id := "disaster_event_" ++ nowTs ++ "_" ++ toString packet_index
    packet_type := "discrete_disaster_event"
    kafka_topic := "disaster-events-discrete"
    timestamp := nowIso
    schema_version := "2.1"
    event_id := event.event_id
    event_type := event.event_type
    event_name := event.description
    event_description := event.description
    event_severity := event.severity
    start_date := start_date
    end_date := end_date
    all_dates_mentioned :=
      match start_date with
      | some s => if s ≠ "" then [s] else []
      | none => []
    is_ongoing := end_date.isNone && start_date.isSome
    primary_location := event.primary_location
    affected_locations := event.locations
    num_locations := event.locations.length
    deaths := lookupI casualties "deaths" 0
    injured := lookupI casualties "injured" 0
    displaced := lookupI casualties "displaced" 0
    total_affected := if casualties.isEmpty then 0 else (casualties.map (·.2)).foldl (· + ·) 0
    src_url := url
    src_domain := search_item.domain
    src_title := struct.title
    collection_timestamp := nowIso
    content_ids := event.content_ids
    disaster_type := disaster_type
    relevance_score := search_item.relevance_score
    confidence :=
      if truthyS start_date && truthyS event.primary_location then "high" else "medium"
    extraction_method := "llm_clustering"
    priority := if event.severity = "high" then "high" else "normal"
    requires_nlp := false
    requires_geo_coding := !event.locations.isEmpty
    requires_time_normalization :=
      strIn "RELATIVE:" (match start_date with | some s => s | none => "None")
    retention_days := 365 }

/-! ## Helper lemmas about the date model -/

/-- A coarse strictly monotone measure on date triples. -/
def ord (a : Date) : Nat := a.y * 372 + a.m * 31 + a.d

lemma daysInMonth_ge_28 (y m : Nat) : 28 ≤ daysInMonth y m := by
  unfold daysInMonth
  by_cases h2 : m = 2 <;> simp [h2] <;> split <;> omega

lemma daysInMonth_dec (y : Nat) : daysInMonth y 12 = 31 := by
  norm_num [daysInMonth]

lemma dateLe_refl (a : Date) : dateLe a a := by unfold dateLe; omega

lemma dateLe_trans {a b c : Date} (h1 : dateLe a b) (h2 : dateLe b c) : dateLe a c := by
  unfold dateLe at *; omega

lemma dateLe_of_lt {a b : Date} (h : dateLt a b) : dateLe a b := by
  unfold dateLt at h; unfold dateLe; omega

lemma prevDay_spec (a : Date) (hv : validDate a) (hne : a ≠ ⟨1, 1, 1⟩) :
    validDate (prevDay a) ∧ dateLt (prevDay a) a ∧ ord a ≤ ord (prevDay a) + 4 := by
  obtain ⟨hy, hm1, hm2, hd1, hd2⟩ := hv
  have hb : ¬(a.y = 1 ∧ a.m = 1 ∧ a.d = 1) := by
    intro h
    apply hne
    cases a
    simp only [Date.mk.injEq]
    exact ⟨h.1, h.2.1, h.2.2⟩
  have h28 := daysInMonth_ge_28 a.y (a.m - 1)
  have h12 := daysInMonth_dec (a.y - 1)
  unfold prevDay
  split_ifs with h1 h2 <;> refine ⟨?_, ?_, ?_⟩ <;>
    simp only [validDate, dateLt, ord, true_and, and_true, lt_self_iff_false,
      false_or, or_false] <;> omega

lemma ord_bottom : ord ⟨1, 1, 1⟩ = 404 := by simp [ord]

lemma subDays_spec : ∀ (n : Nat) (a : Date), validDate a → 404 + 4 * n ≤ ord a →
    validDate (subDays n a) ∧ dateLe (subDays n a) a ∧
      ord a ≤ ord (subDays n a) + 4 * n := by
  intro n
  induction n with
  | zero =>
    intro a hv _
    simp only [subDays]
    exact ⟨hv, dateLe_refl a, by omega⟩
  | succ n ih =>
    intro a hv hbound
    have hne : a ≠ ⟨1, 1, 1⟩ := by
      intro h
      rw [h, ord_bottom] at hbound
      omega
    obtain ⟨hpv, hplt, hpord⟩ := prevDay_spec a hv hne
    have hbound' : 404 + 4 * n ≤ ord (prevDay a) := by omega
    obtain ⟨hsv, hsle, hsord⟩ := ih (prevDay a) hpv hbound'
    simp only [subDays]
    exact ⟨hsv, dateLe_trans hsle (dateLe_of_lt hplt), by omega⟩

lemma ord_lower (a : Date) (hv : validDate a) (hy : 2 ≤ a.y) : 776 ≤ ord a := by
  obtain ⟨_, hm1, _, hd1, _⟩ := hv
  unfold ord
  omega

/-- Positions in `enumFrom` are bounded by the start index plus length. -/
lemma mem_enumFrom_bounds {α : Type} :
    ∀ (l : List α) (n : Nat) (p : Nat × α),
      p ∈ l.enumFrom n → n ≤ p.1 ∧ p.1 < n + l.length := by
  intro l
  induction l with
  | nil => intro n p hp; simp [List.enumFrom] at hp
  | cons a as ih =>
    intro n p hp
    simp only [List.enumFrom, List.mem_cons] at hp
    rcases hp with h | h
    · subst h
      refine ⟨Nat.le_refl _, ?_⟩
      simp only [List.length_cons]
      omega
    · have := ih (n + 1) p h
      simp only [List.length_cons]
      omega

/-- A fallback event built for paragraph `i` carries the synthetic id
`para_i`. -/
lemma fallbackEvent_id (ent : Entities) (dt : String) (i : Nat) (p : String)
    (ev : Event) (h : fallbackEvent ent dt i p = some ev) :
    ev.event_id = "para_" ++ toString i := by
  simp only [fallbackEvent] at h
  split at h
  · rw [Option.some.injEq] at h
    subst h
    rfl
  · exact Option.noConfusion h

/-! ## Claims -/

/-- C1 (counterexample): the claim says that for every oracle reply,
well-formed or malformed, the returned TimeBounds has valid calendar
dates with start_date ≤ end_date.  It fails: a successfully parsed
oracle reply is returned without any validation, so a reply whose start
date is after its end date passes through unchanged. -/
theorem C1_counterexample :
    extract_time_bounds_from_query
        (some { start_date := some "2025-01-01", end_date := some "2020-01-01",
                temporal_description := some "inverted", has_time_constraint := true })
        ⟨2026, 10, 12⟩ =
      { start_date := some "2025-01-01", end_date := some "2020-01-01",
        temporal_description := some "inverted", has_time_constraint := true } ∧
    parseYMD "2025-01-01" = some ⟨2025, 1, 1⟩ ∧
    parseYMD "2020-01-01" = some ⟨2020, 1, 1⟩ ∧
    ¬ dateLe ⟨2025, 1, 1⟩ ⟨2020, 1, 1⟩ :=
  ⟨rfl, by decide, by decide, by decide⟩

/-- C1 (amended): only on the fallback path is the invariant enforced —
for any valid `today` with year at least 2, the fallback TimeBounds
carries formatted valid calendar dates with start_date ≤ end_date (the
7-day window ending today); a successfully parsed oracle reply is
returned unvalidated. -/
theorem C1_fallback_bounds_ordered (today : Date) (hv : validDate today)
    (hy : 2 ≤ today.y) :
    ∃ s e : Date,
      (extract_time_bounds_from_query none today).start_date = some (formatDate s) ∧
      (extract_time_bounds_from_query none today).end_date = some (formatDate e) ∧
      validDate s ∧ validDate e ∧ dateLe s e := by
  have hb : 404 + 4 * 7 ≤ ord today := by
    have := ord_lower today hv hy
    omega
  obtain ⟨h1, h2, _⟩ := subDays_spec 7 today hv hb
  exact ⟨subDays 7 today, today, rfl, rfl, h1, hv, h2⟩

/-- C1 (witness): the fallback invariant instantiated at a concrete
today. -/
theorem C1_witness :
    ∃ s e : Date,
      (extract_time_bounds_from_query none ⟨2026, 10, 12⟩).start_date =
        some (formatDate s) ∧
      (extract_time_bounds_from_query none ⟨2026, 10, 12⟩).end_date =
        some (formatDate e) ∧
      validDate s ∧ validDate e ∧ dateLe s e :=
  C1_fallback_bounds_ordered ⟨2026, 10, 12⟩ (by decide) (by decide)

/-- C2: whenever the oracle call fails (error, timeout, or unparsable
output — all modelled by the `none` reply), `extract_time_bounds_from_query`
propagates no error and returns exactly the default TimeBounds:
start_date = today minus 7 days, end_date = today, temporal_description
"past week (default)", has_time_constraint false. -/
theorem C2_oracle_failure_default (today : Date) :
    extract_time_bounds_from_query none today =
      { start_date := some (formatDate (subDays 7 today))
        end_date := some (formatDate today)
        temporal_description := some "past week (default)"
        has_time_constraint := false } := rfl

/-- C3 (counterexample): the claim says severity is "high" whenever the
location count exceeds 3, for every casualty list, and "low" for zero
casualties with one location.  `calculate_severity` returns "low" for
an empty casualty list even with 4 locations, and the live fallback
clusterer computes severity by a different inline rule, labelling an
event with zero casualties and one location "medium". -/
theorem C3_counterexample :
    calculate_severity [] 4 = "low" ∧
    (extract_discrete_events_fallback
        ["Severe flooding was reported across Kerala during the first week of August."]
        { locations := ["Kerala"] } [] "flood").map (fun ev => ev.severity) =
      ["medium"] :=
  ⟨rfl, by decide⟩

/-- C3 (amended): `calculate_severity` — the rule shared by the table
and paragraph branches of `extract_discrete_events` — returns "low"
whenever the casualty list is empty regardless of location count, and
on a nonempty list computes exactly the spec rule on the summed
casualty total.  The live fallback clusterer does not reuse it: its
events are "high" exactly when the deaths entry (the first matched
casualty number) exceeds 50, else "medium". -/
theorem C3_severity_rule :
    (∀ (cs : List String) (n : Nat), cs ≠ [] →
        calculate_severity cs n = severitySpec (casualtyTotal cs) n) ∧
    (∀ n : Nat, calculate_severity [] n = "low") ∧
    (∀ (ps : List String) (ent : Entities) (ts : List Table) (dt : String)
        (ev : Event), ev ∈ extract_discrete_events_fallback ps ent ts dt →
        ev.severity =
          if (50 : Int) < lookupI ev.casualties "deaths" 0 then "high"
          else "medium") := by
  refine ⟨?_, ?_, ?_⟩
  · intro cs n hne
    unfold calculate_severity severitySpec
    simp [hne]
  · intro n
    rfl
  · intro ps ent ts dt ev hmem
    unfold extract_discrete_events_fallback at hmem
    rw [List.mem_filterMap] at hmem
    obtain ⟨ip, _, hf⟩ := hmem
    simp only [fallbackEvent] at hf
    split at hf
    · rw [Option.some.injEq] at hf
      subst hf
      cases hc : (fallbackCasualties ip.2).head? with
      | none => simp [hc, lookupI]
      | some c =>
        simp only [hc, lookupI, List.find?]
        norm_num
    · exact Option.noConfusion hf

/-- C3 (witness): the shared rule instantiated on a concrete nonempty
casualty list. -/
theorem C3_witness :
    calculate_severity ["25"] 1 = severitySpec (casualtyTotal ["25"]) 1 :=
  C3_severity_rule.1 ["25"] 1 (by decide)

/-- C4: with an active time constraint whose bounds parse as the
calendar dates `[sd, ed]`, the event filter raises nothing and returns
exactly the events accepted by the per-event decision; that decision
drops every event with no start date, keeps an event whose (non-relative)
start date parses as a calendar date iff that date lies within the
bounds, inclusive at both ends, drops events whose start date fails to
parse, and resolves a `RELATIVE:` start date to now; with
`has_time_constraint` false the input list is returned unchanged. -/
theorem C4_event_filter (events : List Event) (tb : TimeBounds) (now sd ed : Date)
    (ss es : String) (hc : tb.has_time_constraint = true)
    (hs : tb.start_date = some ss) (hsd : parseYMD ss = some sd)
    (he : tb.end_date = some es) (hed : parseYMD es = some ed) :
    filter_events_by_time_bounds events tb now =
      .ok (events.filter (eventWithinBounds sd ed now)) ∧
    (∀ ev : Event, ev.start_date = none → eventWithinBounds sd ed now ev = false) ∧
    (∀ (ev : Event) (s : String) (d : Date), ev.start_date = some s →
        pyStarts "RELATIVE:" s = false → parseYMD s = some d →
        (eventWithinBounds sd ed now ev = true ↔ dateLe sd d ∧ dateLe d ed)) ∧
    (∀ (ev : Event) (s : String), ev.start_date = some s →
        pyStarts "RELATIVE:" s = false → parseYMD s = none →
        eventWithinBounds sd ed now ev = false) ∧
    (∀ (events' : List Event) (tb' : TimeBounds), tb'.has_time_constraint = false →
        filter_events_by_time_bounds events' tb' now = .ok events') := by
  refine ⟨?_, ?_, ?_, ?_, ?_⟩
  · simp [filter_events_by_time_bounds, hc, hs, hsd, he, hed]
  · intro ev h
    simp [eventWithinBounds, h]
  · intro ev s d h hrel hp
    by_cases hse : s = ""
    · rw [hse] at hp
      have hnone : parseYMD "" = none := rfl
      rw [hnone] at hp
      exact Option.noConfusion hp
    · simp [eventWithinBounds, h, hse, hrel, hp]
  · intro ev s h hrel hp
    by_cases hse : s = ""
    · simp [eventWithinBounds, h, hse]
    · simp [eventWithinBounds, h, hse, hrel, hp]
  · intro events' tb' h
    simp [filter_events_by_time_bounds, h]

/-- C4 (witness): bounds `[2024-08-01, 2024-08-31]` exclude a
`2024-09-01` event, include a `2024-08-31` event (inclusive boundary),
and drop an event without start date. -/
theorem C4_witness :
    filter_events_by_time_bounds
        [{ event_id := "e1", start_date := some "2024-09-01" },
         { event_id := "e2", start_date := some "2024-08-31" },
         { event_id := "e3" }]
        { start_date := some "2024-08-01", end_date := some "2024-08-31",
          has_time_constraint := true } ⟨2024, 8, 15⟩ =
      .ok [{ event_id := "e2", start_date := some "2024-08-31" }] :=
  ((C4_event_filter _ _ ⟨2024, 8, 15⟩ ⟨2024, 8, 1⟩ ⟨2024, 8, 31⟩
      "2024-08-01" "2024-08-31" rfl rfl (by decide) rfl (by decide)).1).trans
    rfl

/-- C5: the URL pre-filter returns the input list unchanged when no
time constraint is active, and when the per-candidate date/recency
heuristic excludes every candidate it returns the first two candidates
of the original list instead of an empty list. -/
theorem C5_url_filter (urls : List UrlItem) (tb : TimeBounds) (sd ed : Date)
    (ss es : String) (hc : tb.has_time_constraint = true)
    (hs : tb.start_date = some ss) (hsd : parseYMD ss = some sd)
    (he : tb.end_date = some es) (hed : parseYMD es = some ed)
    (hall : urls.filter (urlItemKeep sd ed) = []) :
    filter_urls_by_date_relevance urls tb = .ok (urls.take 2) ∧
    (∀ (urls' : List UrlItem) (tb' : TimeBounds), tb'.has_time_constraint = false →
        filter_urls_by_date_relevance urls' tb' = .ok urls') := by
  constructor
  · simp [filter_urls_by_date_relevance, hc, hs, hsd, he, hed, hall]
  · intro urls' tb' h
    simp [filter_urls_by_date_relevance, h]

/-- C5 (witness): three candidates with no date patterns and no recency
keywords are all excluded, and the filter returns the first two. -/
theorem C5_witness :
    filter_urls_by_date_relevance
        [⟨"https://ex.com/a", "city news roundup", "none"⟩,
         ⟨"https://ex.com/b", "weather column", ""⟩,
         ⟨"https://ex.com/c", "archive piece", ""⟩]
        { start_date := some "2024-08-01", end_date := some "2024-08-31",
          has_time_constraint := true } =
      .ok [⟨"https://ex.com/a", "city news roundup", "none"⟩,
           ⟨"https://ex.com/b", "weather column", ""⟩] :=
  ((C5_url_filter _ _ ⟨2024, 8, 1⟩ ⟨2024, 8, 31⟩ "2024-08-01" "2024-08-31"
      rfl rfl (by decide) rfl (by decide) (by decide)).1).trans rfl

/-- C6 (counterexample): the claim attributes the table-row extraction
to fallback clustering, but the live fallback
`extract_discrete_events_fallback` never reads its `tables` argument:
with no qualifying paragraphs it emits zero events for the claimed
table, not exactly one. -/
theorem C6_counterexample :
    extract_discrete_events_fallback [] {}
        [{ headers := ["Date", "Location", "Deaths"],
           rows := [["2024-08-15", "Kerala", "25"]] }] "flood" = [] := rfl

/-- C6 (amended): the table-aware extractor `extract_discrete_events`
(not on the live fallback path) emits for that table exactly one event
with start_date "2024-08-15", primary_location "Kerala" and severity
"medium", whose casualty data is recorded as reported ["25"] and
total 25 — there is no `deaths` entry; the live fallback emits no event
for this input. -/
theorem C6_table_event :
    extract_discrete_events [] {} "flood"
        [{ headers := ["Date", "Location", "Deaths"],
           rows := [["2024-08-15", "Kerala", "25"]] }] =
      [{ event_id := "table_0_row_0", event_type := "flood",
         description := "Flood event", dates := ["2024-08-15"],
         start_date := some "2024-08-15", end_date := none,
         locations := ["Kerala"], primary_location := some "Kerala",
         casualties_reported := ["25"], casualties_total := 25,
         severity := "medium", source := "table" }] ∧
    extract_discrete_events_fallback [] {}
        [{ headers := ["Date", "Location", "Deaths"],
           rows := [["2024-08-15", "Kerala", "25"]] }] "flood" = [] :=
  ⟨by decide, rfl⟩

/-- C7 (counterexample): the claim requires confidence "medium" for any
event with empty locations and empty casualties; but confidence depends
only on start date and primary location, so such an event that also has
both gets confidence "high". -/
theorem C7_counterexample :
    (create_packet_from_llm_event
        { start_date := some "2024-01-01", primary_location := some "Kerala",
          locations := [], casualties := [] }
        "https://ex.com/a" {} {} "flood" 0 "2025-01-01" "20250101000000"
        "2025-01-01T00:00:00").confidence = "high" := rfl

/-- C7 (amended): packet assembly is total; an event with empty
casualties yields deaths, injured, displaced and total_affected all 0,
an event with empty locations yields empty affected_locations,
priority is "high" exactly when the event severity is "high" (else
"normal"), and confidence — always "high" or "medium" — is "high"
exactly when both a (truthy) start date and a primary location are
present, regardless of locations and casualties. -/
theorem C7_packet_rules (event : Event) (url : String) (si : SearchItem)
    (st : Struct) (dt : String) (idx : Nat) (nowDate nowTs nowIso : String)
    (hnd : nowDate ≠ "") :
    (event.casualties = [] →
      (create_packet_from_llm_event event url si st dt idx nowDate nowTs nowIso).deaths = 0 ∧
      (create_packet_from_llm_event event url si st dt idx nowDate nowTs nowIso).injured = 0 ∧
      (create_packet_from_llm_event event url si st dt idx nowDate nowTs nowIso).displaced = 0 ∧
      (create_packet_from_llm_event event url si st dt idx nowDate nowTs nowIso).total_affected = 0) ∧
    (event.locations = [] →
      (create_packet_from_llm_event event url si st dt idx nowDate nowTs nowIso).affected_locations = []) ∧
    ((create_packet_from_llm_event event url si st dt idx nowDate nowTs nowIso).priority =
      if event.severity = "high" then "high" else "normal") ∧
    ((create_packet_from_llm_event event url si st dt idx nowDate nowTs nowIso).confidence = "high" ∨
     (create_packet_from_llm_event event url si st dt idx nowDate nowTs nowIso).confidence = "medium") ∧
    ((create_packet_from_llm_event event url si st dt idx nowDate nowTs nowIso).confidence = "high" ↔
      truthyS event.start_date = true ∧ truthyS event.primary_location = true) := by
  refine ⟨?_, ?_, ?_, ?_, ?_⟩
  · intro h
    simp [create_packet_from_llm_event, h, lookupI]
  · intro h
    simp [create_packet_from_llm_event, h]
  · rfl
  · simp only [create_packet_from_llm_event]
    split_ifs <;> simp
  · simp only [create_packet_from_llm_event]
    cases hsd : event.start_date with
    | none => simp [truthyS]
    | some s =>
      by_cases hse : s = ""
      · subst hse
        simp [truthyS, pyStarts]
      · by_cases hrel : pyStarts "RELATIVE:" s = true
        · cases hpd : st.publish_date with
          | none => simp [truthyS, hse, hrel, hnd]
          | some p =>
            by_cases hpe : p = ""
            · simp [truthyS, hse, hrel, hpd, hpe, hnd]
            · simp [truthyS, hse, hrel, hpd, hpe]
        · rw [Bool.not_eq_true] at hrel
          simp [truthyS, hse, hrel]

/-- C7 (witness): the all-empty event yields the all-zero packet. -/
theorem C7_witness :
    (create_packet_from_llm_event {} "u" {} {} "flood" 0 "2025-01-01" "ts"
      "iso").deaths = 0 ∧
    (create_packet_from_llm_event {} "u" {} {} "flood" 0 "2025-01-01" "ts"
      "iso").injured = 0 ∧
    (create_packet_from_llm_event {} "u" {} {} "flood" 0 "2025-01-01" "ts"
      "iso").displaced = 0 ∧
    (create_packet_from_llm_event {} "u" {} {} "flood" 0 "2025-01-01" "ts"
      "iso").total_affected = 0 :=
  (C7_packet_rules {} "u" {} {} "flood" 0 "2025-01-01" "ts" "iso"
    (by decide)).1 rfl

/-- C8 (counterexample): the claim says no core operation ever raises
for any input, however degenerate; but with an active constraint whose
start bound is unparsable, the event filter's bound parsing sits
outside any try block and raises. -/
theorem C8_counterexample :
    filter_events_by_time_bounds []
        { start_date := some "not-a-date", end_date := some "2024-01-01",
          has_time_constraint := true } ⟨2024, 1, 1⟩ =
      .error "ValueError: start_date" := rfl

/-- C8 (amended): the URL filter and the event filter return a result
(no raise) for every input whose time bounds either carry no constraint
or have both bounds present and parseable; per-unit malformed data
(such as an unparsable event start date) is skipped locally and never
aborts the batch.  With a truthy constraint and a missing or unparsable
bound, both filters raise. -/
theorem C8_no_raise_on_wellformed_bounds :
    (∀ (events : List Event) (tb : TimeBounds) (now : Date),
        (tb.has_time_constraint = false ∨
         (∃ ss sd es ed, tb.start_date = some ss ∧ parseYMD ss = some sd ∧
            tb.end_date = some es ∧ parseYMD es = some ed)) →
        ∃ out, filter_events_by_time_bounds events tb now = .ok out) ∧
    (∀ (urls : List UrlItem) (tb : TimeBounds),
        (tb.has_time_constraint = false ∨
         (∃ ss sd es ed, tb.start_date = some ss ∧ parseYMD ss = some sd ∧
            tb.end_date = some es ∧ parseYMD es = some ed)) →
        ∃ out, filter_urls_by_date_relevance urls tb = .ok out) := by
  constructor
  · rintro events tb now (h | ⟨ss, sd, es, ed, h1, h2, h3, h4⟩)
    · exact ⟨events, by simp [filter_events_by_time_bounds, h]⟩
    · by_cases hc : tb.has_time_constraint = false
      · exact ⟨events, by simp [filter_events_by_time_bounds, hc]⟩
      · rw [Bool.not_eq_false] at hc
        exact ⟨events.filter (eventWithinBounds sd ed now),
          by simp [filter_events_by_time_bounds, hc, h1, h2, h3, h4]⟩
  · rintro urls tb (h | ⟨ss, sd, es, ed, h1, h2, h3, h4⟩)
    · exact ⟨urls, by simp [filter_urls_by_date_relevance, h]⟩
    · by_cases hc : tb.has_time_constraint = false
      · exact ⟨urls, by simp [filter_urls_by_date_relevance, hc]⟩
      · rw [Bool.not_eq_false] at hc
        refine ⟨if (urls.filter (urlItemKeep sd ed)).isEmpty then urls.take 2
          else urls.filter (urlItemKeep sd ed), ?_⟩
        simp [filter_urls_by_date_relevance, hc, h1, h2, h3, h4]

/-- C8 (witness): an event whose start date does not parse is skipped,
not raised on, when the bounds themselves are well-formed. -/
theorem C8_witness :
    ∃ out, filter_events_by_time_bounds
        [{ event_id := "bad", start_date := some "garbage" }]
        { start_date := some "2024-08-01", end_date := some "2024-08-31",
          has_time_constraint := true } ⟨2024, 8, 15⟩ = .ok out :=
  C8_no_raise_on_wellformed_bounds.1 _ _ _
    (.inr ⟨"2024-08-01", ⟨2024, 8, 1⟩, "2024-08-31", ⟨2024, 8, 31⟩,
      rfl, by decide, rfl, by decide⟩)

/-- C9 (counterexample): the claim says the casualty list is in global
first-seen order, its first element being the number appearing earliest
in the text.  In "3 injured and 7 killed in floods" the number 3
appears first, yet the list is ["7", "3"]: the deaths pattern is
scanned before the injured pattern. -/
theorem C9_counterexample :
    extract_casualty_numbers "3 injured and 7 killed in floods" = ["7", "3"] ∧
    (extract_casualty_numbers "3 injured and 7 killed in floods").head? =
      some "7" :=
  ⟨by decide, by decide⟩

/-- C9 (amended): the casualty list is grouped by pattern in the fixed
source order — deaths keywords, death toll, injured keywords,
missing/displaced keywords — each group in order of appearance, then
truncated to the first 10; hence the first element is the earliest
deaths-pattern match whenever that pattern matches at all, not the
earliest casualty number of the text. -/
theorem C9_casualty_order :
    (∀ text, extract_casualty_numbers text =
        (findCasualty ["killed", "dead", "deaths", "died", "fatalities"] text ++
         scanAll matchTollAt text ++
         findCasualty ["injured", "wounded", "hurt"] text ++
         findCasualty ["missing", "displaced", "evacuated", "affected"] text).take 10) ∧
    (∀ text c rest,
        findCasualty ["killed", "dead", "deaths", "died", "fatalities"] text =
          c :: rest →
        (extract_casualty_numbers text).head? = some c) := by
  have hfold : ∀ text, extract_casualty_numbers text =
      (findCasualty ["killed", "dead", "deaths", "died", "fatalities"] text ++
       scanAll matchTollAt text ++
       findCasualty ["injured", "wounded", "hurt"] text ++
       findCasualty ["missing", "displaced", "evacuated", "affected"] text).take 10 := by
    intro text
    simp [extract_casualty_numbers, casualtyPatternList, findCasualty,
      List.foldl, List.append_assoc]
  refine ⟨hfold, ?_⟩
  intro text c rest h
  rw [hfold, h]
  simp

/-- C9 (witness): with only a deaths-pattern match present, that match
heads the list. -/
theorem C9_witness :
    (extract_casualty_numbers "12 killed after the storm").head? = some "12" :=
  C9_casualty_order.2 "12 killed after the storm" "12" [] (by decide)

/-- C10: the live fallback clusterer ignores its tables argument
entirely, only paragraphs at index below 30 can contribute, and every
emitted event carries a `para_i` id with `i < 30`. -/
theorem C10_fallback_scope :
    (∀ (ps : List String) (ent : Entities) (ts ts' : List Table) (dt : String),
        extract_discrete_events_fallback ps ent ts dt =
          extract_discrete_events_fallback ps ent ts' dt) ∧
    (∀ (ps : List String) (ent : Entities) (ts : List Table) (dt : String),
        extract_discrete_events_fallback ps ent ts dt =
          extract_discrete_events_fallback (ps.take 30) ent ts dt) ∧
    (∀ (ps : List String) (ent : Entities) (ts : List Table) (dt : String)
        (ev : Event), ev ∈ extract_discrete_events_fallback ps ent ts dt →
        ∃ i, i < 30 ∧ ev.event_id = "para_" ++ toString i) := by
  refine ⟨?_, ?_, ?_⟩
  · intro ps ent ts ts' dt
    rfl
  · intro ps ent ts dt
    simp [extract_discrete_events_fallback, List.take_take]
  · intro ps ent ts dt ev hmem
    unfold extract_discrete_events_fallback at hmem
    rw [List.mem_filterMap] at hmem
    obtain ⟨ip, hin, hf⟩ := hmem
    have hb := mem_enumFrom_bounds (ps.take 30) 0 ip (by simpa [List.enum] using hin)
    have hlen : (ps.take 30).length ≤ 30 := by
      simp [List.length_take]
    exact ⟨ip.1, by omega, fallbackEvent_id ent dt ip.1 ip.2 ev hf⟩

/-- C10 (witness): a concrete fallback event carries an in-range
paragraph id. -/
theorem C10_witness :
    ∃ i, i < 30 ∧
      (Event.mk "para_0" "flood"
          "Kerala saw flooding along the coast after two days of heavy rain."
          [] none none ["Kerala"] (some "Kerala")
          [("deaths", 0), ("injured", 0), ("displaced", 0)] "medium" []
          "fallback_paragraph").event_id = "para_" ++ toString i :=
  C10_fallback_scope.2.2
    ["Kerala saw flooding along the coast after two days of heavy rain."]
    { locations := ["Kerala"] } [] "flood" _ (by decide)

end DisasterAgent
